import Mathlib

/-!
Shallow embedding of `homeassistant/components/shopping_list.py`.

The store (`ShoppingData`) holds a list of items; each Python item dict
`{'name': ..., 'id': ..., 'complete': ...}` is the structure `Item`.
`uuid.uuid4().hex` is a fresh-identifier supply; it is modelled as a counter
carried in the store state (`nextId`), each draw yielding a new index, with
`uuidHex` producing the hex string for serialization.  JSON bodies (both the
POST payload and the responses) are modelled by the inductive `JVal`.
-/

/-- A JSON value, as produced by `request.json()` and consumed by the
voluptuous schema and by the aiohttp JSON responses. -/
inductive JVal where
  | jNull : JVal
  | jBool : Bool → JVal
  | jInt : Int → JVal
  | jStr : String → JVal
  | jArr : List JVal → JVal
  | jObj : List (String × JVal) → JVal

/-- A parsed JSON object body: a Python dict as key/value pairs. -/
abbrev Payload := List (String × JVal)

/-- Hex rendering of the n-th identifier drawn from the supply; stands for
the `.hex` string of the n-th `uuid.uuid4()` call. -/
def uuidHex (n : Nat) : String := (Nat.toDigits 16 n).asString

/-- One shopping-list entry: the dict `{'name': name, 'id': ..., 'complete': ...}`
built by `ShoppingData.add`.  The `id` field holds the index of the uuid draw
that produced it (serialized through `uuidHex`). -/
structure Item where
  name : String
  id : Nat
  complete : Bool
deriving DecidableEq, Repr

/-- Python `class ShoppingData`: the list of items, plus the state of the modelled
`uuid.uuid4` supply (`nextId` = number of draws made so far). -/
structure ShoppingData where
  items : List Item
  nextId : Nat
deriving DecidableEq, Repr

/-- The store as created by `async_setup`: `ShoppingData([])`, before any
uuid draw. -/
def ShoppingData.empty : ShoppingData := { items := [], nextId := 0 }

/-- Method `ShoppingData.add`: appends `{'name': name, 'id': uuid.uuid4().hex,
'complete': False}` to `self.items`.  The Python method has no `return`
statement, so it returns `None`; that result is the `Option Item` component
(always `none`). -/
def ShoppingData.add (sd : ShoppingData) (name : String) :
    Option Item × ShoppingData :=
  let item : Item := { name := name, id := sd.nextId, complete := false }
  (none, { items := sd.items ++ [item], nextId := sd.nextId + 1 })

/-- Whether one key/value pair is admitted by `ITEM_UPDATE_SCHEMA =
vol.Schema({'complete': bool, 'name': str})`: the key must be one of the two
recognized ones and the value must have the declared type. -/
def validField : String × JVal → Bool
  | ("complete", JVal.jBool _) => true
  | ("name", JVal.jStr _) => true
  | _ => false

/-- Call `ITEM_UPDATE_SCHEMA(info)`: voluptuous validates every entry of the dict
against the declared keys and types (extra keys are rejected by default) and
returns the validated dict; an offending entry raises `vol.Invalid`,
modelled as `none`. -/
def ITEM_UPDATE_SCHEMA (info : Payload) : Option Payload :=
  if info.all validField then some info else none

/-- Effect of one validated dict entry on an item, as performed by
`item.update(info)`: the entry overwrites the corresponding field.  Entries
not admitted by `ITEM_UPDATE_SCHEMA` cannot reach this point, so the
catch-all branch is inert. -/
def applyField (it : Item) (kv : String × JVal) : Item :=
  match kv with
  | ("name", JVal.jStr s) => { it with name := s }
  | ("complete", JVal.jBool b) => { it with complete := b }
  | _ => it

/-- Call `item.update(info)` for a schema-validated `info`: each entry of the
dict overwrites the corresponding field of the item, left to right. -/
def dictUpdate (itm : Item) (info : Payload) : Item :=
  info.foldl applyField itm

/-- In-place mutation of the first item whose `id` matches, as performed by
`item.update(info)` on the object returned by
`next((itm for itm in self.items if itm['id'] == item_id), None)`. -/
def updateFirst (l : List Item) (item_id : Nat) (info : Payload) : List Item :=
  match l with
  | [] => []
  | itm :: rest =>
    if itm.id == item_id then dictUpdate itm info :: rest
    else itm :: updateFirst rest item_id info

/-- The two exceptions `ShoppingData.update` can raise: `KeyError` when no
item has the given id, `vol.Invalid` when the payload fails the schema. -/
inductive UpdateError where
  | keyError : UpdateError
  | invalid : UpdateError
deriving DecidableEq, Repr

/-- Method `ShoppingData.update(item_id, info)`: look the item up
(`next((itm for itm in self.items if itm['id'] == item_id), None)`); raise
`KeyError` if absent; validate `info` with `ITEM_UPDATE_SCHEMA` (raising
`vol.Invalid` on failure); then `item.update(info)` in place and return the
item.  The mutated store travels alongside the result; both exception
branches leave it untouched, exactly as the Python control flow does. -/
def ShoppingData.update (sd : ShoppingData) (item_id : Nat) (info : Payload) :
    Except UpdateError Item × ShoppingData :=
  match sd.items.find? (fun itm => itm.id == item_id) with
  | none => (Except.error UpdateError.keyError, sd)
  | some itm =>
    match ITEM_UPDATE_SCHEMA info with
    | none => (Except.error UpdateError.invalid, sd)
    | some validated =>
      (Except.ok (dictUpdate itm validated),
       { sd with items := updateFirst sd.items item_id validated })

/-- Method `ShoppingData.clear_completed`:
`self.items = [itm for itm in self.items if not itm['complete']]`. -/
def ShoppingData.clear_completed (sd : ShoppingData) : ShoppingData :=
  { sd with items := sd.items.filter (fun itm => !itm.complete) }

/-- An HTTP response: status code plus JSON body. -/
structure HttpResponse where
  status : Nat
  body : JVal

/-- Modelled from the spec: `HomeAssistantView.json` (repository code outside
`src/`) serializes its argument and answers with status 200. -/
def viewJson (data : JVal) : HttpResponse := { status := 200, body := data }

/-- Modelled from the spec: `HomeAssistantView.json_message` (repository code
outside `src/`) answers with the given status and the JSON error body
`{"message": message}`. -/
def json_message (message : String) (status : Nat) : HttpResponse :=
  { status := status, body := JVal.jObj [("message", JVal.jStr message)] }

/-- Modelled from the spec: `homeassistant.const.HTTP_NOT_FOUND` is 404. -/
def HTTP_NOT_FOUND : Nat := 404

/-- Modelled from the spec: `homeassistant.const.HTTP_BAD_REQUEST` is 400. -/
def HTTP_BAD_REQUEST : Nat := 400

/-- JSON serialization of one item dict, keys in the insertion order of
`ShoppingData.add`. -/
def itemToJson (itm : Item) : JVal :=
  JVal.jObj
    [("name", JVal.jStr itm.name),
     ("id", JVal.jStr (uuidHex itm.id)),
     ("complete", JVal.jBool itm.complete)]

/-- View `ShoppingListView.get`: `self.json(...items)` — the full list, in store
order. -/
def ShoppingListView.get (sd : ShoppingData) : HttpResponse :=
  viewJson (JVal.jArr (sd.items.map itemToJson))

/-- View `UpdateShoppingListItemView.post`: run `update`; on success answer
`self.json(item)`; on `KeyError` answer `json_message('Item not found',
HTTP_NOT_FOUND)`; on `vol.Invalid` answer `json_message('Item not found',
HTTP_BAD_REQUEST)`. -/
def UpdateShoppingListItemView.post (sd : ShoppingData) (item_id : Nat)
    (data : Payload) : HttpResponse × ShoppingData :=
  match sd.update item_id data with
  | (Except.ok item, sd') => (viewJson (itemToJson item), sd')
  | (Except.error UpdateError.keyError, sd') =>
      (json_message "Item not found" HTTP_NOT_FOUND, sd')
  | (Except.error UpdateError.invalid, sd') =>
      (json_message "Item not found" HTTP_BAD_REQUEST, sd')

/-- Python `l[-5:]`: the last (at most) `n` elements of the list. -/
def lastN (n : Nat) (l : List α) : List α := l.drop (l.length - n)

/-- Handler `ListTopItemsIntent.async_handle`: take `items[-5:]`; if empty, speak the
fixed empty-list utterance; otherwise speak the top-`min(len(items), 5)`
names, joined by `', '` over `reversed(items)`. -/
def ListTopItemsIntent.async_handle (sd : ShoppingData) : String :=
  let items := lastN 5 sd.items
  if items.isEmpty then
    "There are no items on your shopping list"
  else
    "These are the top " ++ toString (min items.length 5) ++
      " items on your shopping list: " ++
      String.intercalate ", " (items.reverse.map Item.name)

/-- The item names `ListTopItemsIntent.async_handle` enumerates, in the order
they are spoken (`reversed(items[-5:])`). -/
def topItemNames (sd : ShoppingData) : List String :=
  ((lastN 5 sd.items).reverse).map Item.name

/-- Run a sequence of `add` calls in order. -/
def addAll (sd : ShoppingData) (names : List String) : ShoppingData :=
  names.foldl (fun s n => (s.add n).2) sd

/-- The store invariant: item ids are pairwise distinct, and every id was
drawn from the supply (is below the draw counter). -/
def StoreInv (sd : ShoppingData) : Prop :=
  (sd.items.map Item.id).Nodup ∧ ∀ itm ∈ sd.items, itm.id < sd.nextId

/-- Sample store: one `add("milk")` on the empty store. -/
def sdMilk : ShoppingData := (ShoppingData.empty.add "milk").2

/-- Sample store with one completed and one open item. -/
def sdMixed : ShoppingData :=
  { items := [{ name := "eggs", id := 0, complete := true },
              { name := "bread", id := 1, complete := false }],
    nextId := 2 }

/-- The items built by a run of `add` calls, given the starting value of the
id supply. -/
def mkItems (start : Nat) : List String → List Item
  | [] => []
  | n :: rest => { name := n, id := start, complete := false } :: mkItems (start + 1) rest

theorem applyField_id (it : Item) (kv : String × JVal) :
    (applyField it kv).id = it.id := by
  unfold applyField
  split <;> rfl

theorem dictUpdate_id (info : Payload) (itm : Item) :
    (dictUpdate itm info).id = itm.id := by
  induction info generalizing itm with
  | nil => rfl
  | cons kv rest ih =>
    have h1 : dictUpdate itm (kv :: rest) = dictUpdate (applyField itm kv) rest := rfl
    rw [h1, ih, applyField_id]

theorem dictUpdate_complete (itm : Item) (b : Bool) :
    dictUpdate itm [("complete", JVal.jBool b)] = { itm with complete := b } := rfl

theorem dictUpdate_name (itm : Item) (s : String) :
    dictUpdate itm [("name", JVal.jStr s)] = { itm with name := s } := rfl

theorem updateFirst_map_id (l : List Item) (item_id : Nat) (info : Payload) :
    (updateFirst l item_id info).map Item.id = l.map Item.id := by
  induction l with
  | nil => rfl
  | cons a rest ih =>
    by_cases h : (a.id == item_id) = true
    · simp [updateFirst, h, dictUpdate_id]
    · simp only [Bool.not_eq_true] at h
      simp [updateFirst, h, ih]

theorem updateFirst_empty_info (l : List Item) (item_id : Nat) :
    updateFirst l item_id [] = l := by
  induction l with
  | nil => rfl
  | cons a rest ih =>
    by_cases h : (a.id == item_id) = true
    · simp [updateFirst, h, dictUpdate]
    · simp only [Bool.not_eq_true] at h
      simp [updateFirst, h, ih]

theorem updateFirst_of_find? (l : List Item) (item_id : Nat) (info : Payload)
    (itm : Item) (h : l.find? (fun x => x.id == item_id) = some itm) :
    ∃ pre post, l = pre ++ itm :: post ∧ (∀ y ∈ pre, y.id ≠ item_id) ∧
      itm.id = item_id ∧
      updateFirst l item_id info = pre ++ dictUpdate itm info :: post := by
  induction l with
  | nil => simp [List.find?] at h
  | cons a rest ih =>
    rw [List.find?_cons] at h
    by_cases ha : a.id = item_id
    · have hb : (a.id == item_id) = true := by simpa using ha
      rw [hb] at h
      obtain rfl : a = itm := by simpa using h
      refine ⟨[], rest, by simp, by simp, ha, ?_⟩
      simp [updateFirst, hb]
    · have hb : (a.id == item_id) = false := by simpa using ha
      rw [hb] at h
      obtain ⟨pre, post, hl, hpre, hid, hup⟩ := ih h
      refine ⟨a :: pre, post, by simp [hl], ?_, hid, ?_⟩
      · intro y hy
        rcases List.mem_cons.mp hy with rfl | hy
        · exact ha
        · exact hpre y hy
      · simp [updateFirst, hb, hup]

theorem mkItems_map_name (start : Nat) (names : List String) :
    (mkItems start names).map Item.name = names := by
  induction names generalizing start with
  | nil => rfl
  | cons n rest ih => simp [mkItems, ih]

theorem mkItems_map_id (start : Nat) (names : List String) :
    (mkItems start names).map Item.id = List.range' start names.length := by
  induction names generalizing start with
  | nil => rfl
  | cons n rest ih => simp [mkItems, ih, List.range']

theorem addAll_eq (sd : ShoppingData) (names : List String) :
    addAll sd names =
      { items := sd.items ++ mkItems sd.nextId names,
        nextId := sd.nextId + names.length } := by
  induction names generalizing sd with
  | nil => simp [addAll, mkItems]
  | cons n rest ih =>
    have h1 : addAll sd (n :: rest) = addAll (sd.add n).2 rest := rfl
    rw [h1, ih]
    simp [ShoppingData.add, mkItems, List.append_assoc]
    omega

theorem storeInv_add (sd : ShoppingData) (name : String) (h : StoreInv sd) :
    StoreInv (sd.add name).2 := by
  obtain ⟨hnd, hlt⟩ := h
  constructor
  · simp only [ShoppingData.add, List.map_append, List.map_cons, List.map_nil]
    rw [List.nodup_append]
    refine ⟨hnd, List.nodup_singleton _, ?_⟩
    intro x hx hx'
    simp only [List.mem_singleton] at hx'
    obtain ⟨itm, hitm, rfl⟩ := List.mem_map.mp hx
    have := hlt itm hitm
    omega
  · intro itm hitm
    simp only [ShoppingData.add, List.mem_append, List.mem_singleton] at hitm
    rcases hitm with hitm | rfl
    · exact Nat.lt_succ_of_lt (hlt itm hitm)
    · exact Nat.lt_succ_self _

theorem storeInv_update (sd : ShoppingData) (item_id : Nat) (info : Payload)
    (r : Except UpdateError Item) (sd' : ShoppingData) (h : StoreInv sd)
    (hu : sd.update item_id info = (r, sd')) : StoreInv sd' := by
  unfold ShoppingData.update at hu
  rcases hf : sd.items.find? (fun itm => itm.id == item_id) with _ | itm
  · rw [hf] at hu
    cases hu
    exact h
  · rw [hf] at hu
    rcases hs : ITEM_UPDATE_SCHEMA info with _ | v
    · rw [hs] at hu
      cases hu
      exact h
    · rw [hs] at hu
      cases hu
      obtain ⟨hnd, hlt⟩ := h
      constructor
      · simpa [updateFirst_map_id] using hnd
      · intro itm' hm
        have h1 : itm'.id ∈ (updateFirst sd.items item_id v).map Item.id :=
          List.mem_map_of_mem _ hm
        rw [updateFirst_map_id] at h1
        obtain ⟨x, hx, hid⟩ := List.mem_map.mp h1
        exact hid ▸ hlt x hx

theorem update_eq_of_find?_none (sd : ShoppingData) (item_id : Nat)
    (info : Payload)
    (hf : sd.items.find? (fun itm => itm.id == item_id) = none) :
    sd.update item_id info = (Except.error UpdateError.keyError, sd) := by
  simp only [ShoppingData.update, hf]

theorem update_eq_of_schema_none (sd : ShoppingData) (item_id : Nat)
    (info : Payload) (itm : Item)
    (hf : sd.items.find? (fun x => x.id == item_id) = some itm)
    (hs : ITEM_UPDATE_SCHEMA info = none) :
    sd.update item_id info = (Except.error UpdateError.invalid, sd) := by
  simp only [ShoppingData.update, hf, hs]

theorem update_eq_of_schema_some (sd : ShoppingData) (item_id : Nat)
    (info : Payload) (itm : Item) (v : Payload)
    (hf : sd.items.find? (fun x => x.id == item_id) = some itm)
    (hs : ITEM_UPDATE_SCHEMA info = some v) :
    sd.update item_id info
      = (Except.ok (dictUpdate itm v),
         { sd with items := updateFirst sd.items item_id v }) := by
  simp only [ShoppingData.update, hf, hs]

theorem storeInv_clear_completed (sd : ShoppingData) (h : StoreInv sd) :
    StoreInv sd.clear_completed := by
  obtain ⟨hnd, hlt⟩ := h
  constructor
  · exact List.Nodup.sublist
      (List.Sublist.map Item.id (List.filter_sublist sd.items)) hnd
  · intro itm hitm
    exact hlt itm (List.mem_of_mem_filter hitm)

/-- C1: starting from the empty store, every sequence of `add` calls yields
items whose ids are pairwise distinct, listed in `items` in call order; and
the id-uniqueness invariant `StoreInv` is preserved by `add`, `update` and
`clear_completed`, so it holds for the lifetime of the store. -/
theorem add_sequence_distinct_ids_in_order (names : List String) :
    ((addAll ShoppingData.empty names).items.map Item.id).Nodup
    ∧ (addAll ShoppingData.empty names).items.map Item.name = names
    ∧ (∀ sd nm, StoreInv sd → StoreInv (sd.add nm).2)
    ∧ (∀ sd item_id info r sd', StoreInv sd →
        sd.update item_id info = (r, sd') → StoreInv sd')
    ∧ (∀ sd, StoreInv sd → StoreInv sd.clear_completed) := by
  refine ⟨?_, ?_, storeInv_add, storeInv_update, storeInv_clear_completed⟩
  · rw [addAll_eq]
    simp [mkItems_map_id, ShoppingData.empty]
    exact List.nodup_range' _ _
  · rw [addAll_eq]
    simp [mkItems_map_name, ShoppingData.empty]

/-- Witness for C1 at a concrete run of three `add` calls. -/
theorem add_sequence_distinct_ids_in_order_witness :
    ((addAll ShoppingData.empty ["eggs", "bread", "milk"]).items.map Item.id).Nodup
    ∧ (addAll ShoppingData.empty ["eggs", "bread", "milk"]).items.map Item.name
        = ["eggs", "bread", "milk"]
    ∧ StoreInv (ShoppingData.empty.add "milk").2 :=
  ⟨(add_sequence_distinct_ids_in_order ["eggs", "bread", "milk"]).1,
   (add_sequence_distinct_ids_in_order ["eggs", "bread", "milk"]).2.1,
   (add_sequence_distinct_ids_in_order []).2.2.1 ShoppingData.empty "milk"
     (by constructor <;> simp [ShoppingData.empty])⟩

/-- C2 counterexample: the Python `add` method has no `return` statement, so
`add("milk")` returns `None` — not the created `Item` as the claim states. -/
theorem add_returns_none_cex :
    (ShoppingData.empty.add "milk").1 = none
    ∧ (ShoppingData.empty.add "milk").1
        ≠ some { name := "milk", id := 0, complete := false } :=
  ⟨rfl, by decide⟩

/-- C2 amended: for every string `name` (no emptiness check), `add(name)`
appends to the end of `items` a new `Item` with the given name,
`complete = false`, and a freshly drawn identifier (distinct from every id
already in the store whenever the invariant holds) — but it returns `None`
rather than the created item; callers see the item only through `items`. -/
theorem add_appends_fresh_item (sd : ShoppingData) (name : String) :
    (sd.add name).1 = none
    ∧ (sd.add name).2.items
        = sd.items ++ [{ name := name, id := sd.nextId, complete := false }]
    ∧ (StoreInv sd → sd.nextId ∉ sd.items.map Item.id) := by
  refine ⟨rfl, rfl, ?_⟩
  intro h hmem
  obtain ⟨itm, hitm, hid⟩ := List.mem_map.mp hmem
  have := h.2 itm hitm
  omega

/-- Witness for the amended C2 at `add("milk")` on the empty store. -/
theorem add_appends_fresh_item_witness :
    (ShoppingData.empty.add "milk").1 = none
    ∧ (ShoppingData.empty.add "milk").2.items
        = [{ name := "milk", id := 0, complete := false }]
    ∧ (0 : Nat) ∉ ShoppingData.empty.items.map Item.id := by
  refine ⟨(add_appends_fresh_item ShoppingData.empty "milk").1, ?_, ?_⟩
  · have h := (add_appends_fresh_item ShoppingData.empty "milk").2.1
    simpa [ShoppingData.empty] using h
  · exact (add_appends_fresh_item ShoppingData.empty "milk").2.2
      (by constructor <;> simp [ShoppingData.empty])

/-- C4: `update` with an id matching no item raises `KeyError` (NotFound) and
leaves the store untouched, for every payload, valid or malformed — the
lookup precedes payload validation. -/
theorem update_absent_id_keyError (sd : ShoppingData) (item_id : Nat)
    (info : Payload) (h : ∀ itm ∈ sd.items, itm.id ≠ item_id) :
    sd.update item_id info = (Except.error UpdateError.keyError, sd) := by
  have hf : sd.items.find? (fun itm => itm.id == item_id) = none := by
    rw [List.find?_eq_none]
    intro x hx
    simpa using h x hx
  unfold ShoppingData.update
  rw [hf]

/-- Witness for C4: absent id 7, malformed payload, still `KeyError`. -/
theorem update_absent_id_keyError_witness :
    (∀ itm ∈ sdMilk.items, itm.id ≠ 7)
    ∧ sdMilk.update 7 [("unknown_field", JVal.jInt 1)]
        = (Except.error UpdateError.keyError, sdMilk) :=
  ⟨by decide,
   update_absent_id_keyError sdMilk 7 [("unknown_field", JVal.jInt 1)] (by decide)⟩

/-- C6: `clear_completed` keeps exactly the items with `complete = false`, as
a sublist of the old list (relative order preserved), and is idempotent. -/
theorem clear_completed_exact_and_idempotent (sd : ShoppingData) :
    sd.clear_completed.items.Sublist sd.items
    ∧ (∀ itm, itm ∈ sd.clear_completed.items ↔ itm ∈ sd.items ∧ itm.complete = false)
    ∧ sd.clear_completed.clear_completed = sd.clear_completed := by
  refine ⟨List.filter_sublist sd.items, ?_, ?_⟩
  · intro itm
    simp [ShoppingData.clear_completed, List.mem_filter]
  · have hff : (sd.items.filter (fun itm => !itm.complete)).filter
        (fun itm => !itm.complete) = sd.items.filter (fun itm => !itm.complete) := by
      rw [List.filter_filter]
      congr 1
      funext a
      exact Bool.and_self _
    simp [ShoppingData.clear_completed, hff]

/-- Witness for C6 at a store with one completed and one open item. -/
theorem clear_completed_exact_and_idempotent_witness :
    sdMixed.clear_completed.items.Sublist sdMixed.items
    ∧ sdMixed.clear_completed.clear_completed = sdMixed.clear_completed :=
  ⟨(clear_completed_exact_and_idempotent sdMixed).1,
   (clear_completed_exact_and_idempotent sdMixed).2.2⟩

/-- C9: the empty patch passes `ITEM_UPDATE_SCHEMA`; `update(id, {})` returns
the item found under `id` and leaves the store exactly unchanged. -/
theorem update_empty_patch_noop (sd : ShoppingData) (item_id : Nat) (itm : Item)
    (h : sd.items.find? (fun x => x.id == item_id) = some itm) :
    sd.update item_id [] = (Except.ok itm, sd) := by
  unfold ShoppingData.update
  rw [h]
  show (Except.ok (dictUpdate itm []),
        { sd with items := updateFirst sd.items item_id [] }) = (Except.ok itm, sd)
  rw [updateFirst_empty_info]
  rfl

/-- Witness for C9 on the one-item store. -/
theorem update_empty_patch_noop_witness :
    (sdMilk.items.find? (fun x => x.id == 0)
        = some { name := "milk", id := 0, complete := false })
    ∧ sdMilk.update 0 []
        = (Except.ok { name := "milk", id := 0, complete := false }, sdMilk) :=
  ⟨rfl, update_empty_patch_noop sdMilk 0 _ rfl⟩

/-- C10: whenever `update` fails — `KeyError` for an absent id or
`vol.Invalid` for a malformed payload — the store is left exactly as it was
before the call: the lookup and the validation both precede the mutation. -/
theorem update_error_atomic (sd : ShoppingData) (item_id : Nat) (info : Payload)
    (e : UpdateError) (h : (sd.update item_id info).1 = Except.error e) :
    (sd.update item_id info).2 = sd := by
  rcases hf : sd.items.find? (fun itm => itm.id == item_id) with _ | itm
  · rw [update_eq_of_find?_none sd item_id info hf]
  · rcases hs : ITEM_UPDATE_SCHEMA info with _ | v
    · rw [update_eq_of_schema_none sd item_id info itm hf hs]
    · rw [update_eq_of_schema_some sd item_id info itm v hf hs] at h
      simp at h

/-- Witness for C10: a wrongly-typed `complete` on an existing id. -/
theorem update_error_atomic_witness :
    ((sdMilk.update 0 [("complete", JVal.jInt 1)]).1
        = Except.error UpdateError.invalid)
    ∧ (sdMilk.update 0 [("complete", JVal.jInt 1)]).2 = sdMilk :=
  ⟨rfl, update_error_atomic sdMilk 0 [("complete", JVal.jInt 1)]
      UpdateError.invalid rfl⟩

/-- C3: a successful `update` with a `complete`-only patch rewrites exactly
the (first) item carrying the id: its `name` and `id` are unchanged and only
`complete` becomes the patched value, while every other item — before and
after it — is untouched; symmetrically, a `name`-only patch changes only
`name` and leaves `complete` untouched. -/
theorem update_patch_frame (sd : ShoppingData) (item_id : Nat) (b : Bool)
    (s : String) :
    (∀ itm sd',
      sd.update item_id [("complete", JVal.jBool b)] = (Except.ok itm, sd') →
      ∃ pre x post, sd.items = pre ++ x :: post ∧ (∀ y ∈ pre, y.id ≠ item_id)
        ∧ x.id = item_id ∧ itm = { x with complete := b }
        ∧ sd'.items = pre ++ { x with complete := b } :: post
        ∧ sd'.nextId = sd.nextId)
    ∧ (∀ itm sd',
      sd.update item_id [("name", JVal.jStr s)] = (Except.ok itm, sd') →
      ∃ pre x post, sd.items = pre ++ x :: post ∧ (∀ y ∈ pre, y.id ≠ item_id)
        ∧ x.id = item_id ∧ itm = { x with name := s }
        ∧ sd'.items = pre ++ { x with name := s } :: post
        ∧ sd'.nextId = sd.nextId) := by
  constructor
  · intro itm sd' h
    rcases hf : sd.items.find? (fun x => x.id == item_id) with _ | x0
    · rw [update_eq_of_find?_none sd item_id _ hf] at h
      simp at h
    · rw [update_eq_of_schema_some sd item_id [("complete", JVal.jBool b)] x0
          [("complete", JVal.jBool b)] hf rfl] at h
      injection h with h1 h2
      injection h1 with h1
      obtain ⟨pre, post, hl, hpre, hid, hup⟩ :=
        updateFirst_of_find? sd.items item_id [("complete", JVal.jBool b)] x0 hf
      refine ⟨pre, x0, post, hl, hpre, hid, ?_, ?_, ?_⟩
      · rw [← h1, dictUpdate_complete]
      · rw [← h2]
        show updateFirst sd.items item_id [("complete", JVal.jBool b)]
            = pre ++ { x0 with complete := b } :: post
        rw [hup, dictUpdate_complete]
      · rw [← h2]
  · intro itm sd' h
    rcases hf : sd.items.find? (fun x => x.id == item_id) with _ | x0
    · rw [update_eq_of_find?_none sd item_id _ hf] at h
      simp at h
    · rw [update_eq_of_schema_some sd item_id [("name", JVal.jStr s)] x0
          [("name", JVal.jStr s)] hf rfl] at h
      injection h with h1 h2
      injection h1 with h1
      obtain ⟨pre, post, hl, hpre, hid, hup⟩ :=
        updateFirst_of_find? sd.items item_id [("name", JVal.jStr s)] x0 hf
      refine ⟨pre, x0, post, hl, hpre, hid, ?_, ?_, ?_⟩
      · rw [← h1, dictUpdate_name]
      · rw [← h2]
        show updateFirst sd.items item_id [("name", JVal.jStr s)]
            = pre ++ { x0 with name := s } :: post
        rw [hup, dictUpdate_name]
      · rw [← h2]

/-- Witness for C3 on the one-item store, patching `complete` to `true`. -/
theorem update_patch_frame_witness :
    ∃ pre x post,
      sdMilk.items = pre ++ x :: post ∧ (∀ y ∈ pre, y.id ≠ 0) ∧ x.id = 0
      ∧ ({ name := "milk", id := 0, complete := true } : Item)
          = { x with complete := true }
      ∧ ({ items := [{ name := "milk", id := 0, complete := true }],
           nextId := 1 } : ShoppingData).items
          = pre ++ { x with complete := true } :: post
      ∧ ({ items := [{ name := "milk", id := 0, complete := true }],
           nextId := 1 } : ShoppingData).nextId = sdMilk.nextId :=
  (update_patch_frame sdMilk 0 true "x").1
    { name := "milk", id := 0, complete := true }
    { items := [{ name := "milk", id := 0, complete := true }], nextId := 1 }
    rfl

/-- C5: any patch entry with an unrecognized key or a wrongly-typed value
makes `ITEM_UPDATE_SCHEMA` fail; at the HTTP boundary the two failure kinds
get distinct statuses — `KeyError` answers `HTTP_NOT_FOUND` = 404 and
`vol.Invalid` (on an existing id) answers `HTTP_BAD_REQUEST` = 400 — both
with the same body `json_message "Item not found"`. -/
theorem http_update_failure_statuses (sd : ShoppingData) (item_id : Nat)
    (info : Payload) :
    ((∃ kv ∈ info, validField kv = false) → ITEM_UPDATE_SCHEMA info = none)
    ∧ (sd.items.find? (fun x => x.id == item_id) = none →
        (UpdateShoppingListItemView.post sd item_id info).1
          = json_message "Item not found" HTTP_NOT_FOUND)
    ∧ (∀ itm, sd.items.find? (fun x => x.id == item_id) = some itm →
        ITEM_UPDATE_SCHEMA info = none →
        (UpdateShoppingListItemView.post sd item_id info).1
          = json_message "Item not found" HTTP_BAD_REQUEST)
    ∧ HTTP_NOT_FOUND = 404 ∧ HTTP_BAD_REQUEST = 400 := by
  refine ⟨?_, ?_, ?_, rfl, rfl⟩
  · rintro ⟨kv, hmem, hbad⟩
    have hall : info.all validField = false :=
      List.all_eq_false.mpr ⟨kv, hmem, by simp [hbad]⟩
    unfold ITEM_UPDATE_SCHEMA
    rw [hall]
    rfl
  · intro hf
    unfold UpdateShoppingListItemView.post
    rw [update_eq_of_find?_none sd item_id info hf]
  · intro itm hf hs
    unfold UpdateShoppingListItemView.post
    rw [update_eq_of_schema_none sd item_id info itm hf hs]

/-- Witness for C5: unknown key fails the schema; absent id 7 gives 404 even
with a valid payload; wrongly-typed `complete` on existing id 0 gives 400. -/
theorem http_update_failure_statuses_witness :
    ITEM_UPDATE_SCHEMA [("unknown_field", JVal.jInt 1)] = none
    ∧ (UpdateShoppingListItemView.post sdMilk 7 [("complete", JVal.jBool true)]).1
        = json_message "Item not found" 404
    ∧ (UpdateShoppingListItemView.post sdMilk 0 [("complete", JVal.jInt 1)]).1
        = json_message "Item not found" 400 :=
  ⟨(http_update_failure_statuses sdMilk 0 [("unknown_field", JVal.jInt 1)]).1
      ⟨("unknown_field", JVal.jInt 1), List.mem_singleton_self _, rfl⟩,
   (http_update_failure_statuses sdMilk 7 [("complete", JVal.jBool true)]).2.1 rfl,
   (http_update_failure_statuses sdMilk 0 [("complete", JVal.jInt 1)]).2.2.1
      { name := "milk", id := 0, complete := false } rfl rfl⟩

/-- C7: the top-items intent reads the last five items and enumerates their
names most-recent-first (at most five names); an empty store gets the fixed
empty-list utterance rather than an error; and after `add("eggs")` then
`add("bread")` on the empty store the names are `["bread", "eggs"]`. -/
theorem list_top_items_query (sd : ShoppingData) :
    topItemNames sd = ((sd.items.reverse).map Item.name).take 5
    ∧ (topItemNames sd).length ≤ 5
    ∧ (sd.items = [] →
        ListTopItemsIntent.async_handle sd
          = "There are no items on your shopping list")
    ∧ (sd.items ≠ [] →
        ListTopItemsIntent.async_handle sd
          = "These are the top " ++ toString (topItemNames sd).length
            ++ " items on your shopping list: "
            ++ String.intercalate ", " (topItemNames sd))
    ∧ topItemNames (addAll ShoppingData.empty ["eggs", "bread"])
        = ["bread", "eggs"] := by
  have key : (lastN 5 sd.items).reverse = sd.items.reverse.take 5 := by
    have h := @List.reverse_take Item sd.items.reverse 5
    rw [List.reverse_reverse, List.length_reverse] at h
    unfold lastN
    rw [← h, List.reverse_reverse]
  have hchar : topItemNames sd = ((sd.items.reverse).map Item.name).take 5 := by
    unfold topItemNames
    rw [key, List.map_take]
  refine ⟨hchar, ?_, ?_, ?_, rfl⟩
  · rw [hchar, List.length_take]
    exact Nat.min_le_left _ _
  · intro h0
    simp [ListTopItemsIntent.async_handle, lastN, h0]
  · intro hne
    have hpos : sd.items.length ≠ 0 := fun h0 => hne (List.length_eq_zero.mp h0)
    have hne5 : lastN 5 sd.items ≠ [] := by
      unfold lastN
      intro hd
      have hlen3 := congrArg List.length hd
      simp only [List.length_drop, List.length_nil] at hlen3
      omega
    have hb : (lastN 5 sd.items).isEmpty = false := List.isEmpty_eq_false.mpr hne5
    have hmin : min (lastN 5 sd.items).length 5 = (topItemNames sd).length := by
      unfold topItemNames
      rw [List.length_map, List.length_reverse]
      unfold lastN
      rw [List.length_drop]
      omega
    unfold ListTopItemsIntent.async_handle
    simp only [hb, Bool.false_eq_true, if_false]
    rw [hmin]
    rfl

/-- Witness for C7: the empty store and the eggs-then-bread scenario. -/
theorem list_top_items_query_witness :
    ListTopItemsIntent.async_handle ShoppingData.empty
      = "There are no items on your shopping list"
    ∧ ListTopItemsIntent.async_handle (addAll ShoppingData.empty ["eggs", "bread"])
      = "These are the top " ++ toString 2 ++ " items on your shopping list: "
        ++ String.intercalate ", " ["bread", "eggs"]
    ∧ topItemNames (addAll ShoppingData.empty ["eggs", "bread"])
        = ["bread", "eggs"] :=
  ⟨(list_top_items_query ShoppingData.empty).2.2.1 rfl,
   (list_top_items_query (addAll ShoppingData.empty ["eggs", "bread"])).2.2.2.1
     (by decide),
   (list_top_items_query (addAll ShoppingData.empty ["eggs", "bread"])).2.2.2.2⟩

/-- C8: after `add("milk")` on the empty store, `GET /api/shopping_list`
answers 200 with a one-element JSON array in store order: name `"milk"`,
`complete = false`, and a non-empty id string. -/
theorem get_after_add_milk :
    ShoppingListView.get (ShoppingData.empty.add "milk").2
      = { status := 200,
          body := JVal.jArr [JVal.jObj
            [("name", JVal.jStr "milk"),
             ("id", JVal.jStr (uuidHex 0)),
             ("complete", JVal.jBool false)]] }
    ∧ uuidHex 0 = "0" ∧ uuidHex 0 ≠ "" :=
  ⟨rfl, rfl, by decide⟩
